import Mathlib

/-!
Shallow embedding of the `pr-summarizer` repository's core behavior:
the GitHub PR listing clients (`src/github_client.py`,
`src/src/core/github.py`) and the summarization engine
(`src/src/core/summarizer.py`, `src/llm_summarizer.py`).

Python strings are Lean `String`s; Python dicts used as PR records are
association lists over a small Python-value type; HTTP and model-backend
effects are passed in explicitly as oracle arguments, and the calls a
function performs are returned as an explicit event list.
-/

namespace PRSummarizer

/-- A Python value as it appears in the PR dicts this program builds:
`None`, a string, an integer, or a list of strings (comment bodies). -/
inductive PyVal where
  | none
  | str (s : String)
  | int (n : Int)
  | strList (l : List String)
deriving DecidableEq, Repr

/-- Rendering of a `PyVal` by a Python f-string: `None` renders as the
four characters `None`, strings render as themselves, integers via
decimal notation. (`strList` interpolation is never exercised by the
program's templates; Python would render the list repr.) -/
def PyVal.interp : PyVal → String
  | .none => "None"
  | .str s => s
  | .int n => toString n
  | .strList l => "[" ++ String.intercalate ", " (l.map (fun s => "'" ++ s ++ "'")) ++ "]"

/-- A Python dict with string keys, as used for `pr_data`. -/
abbrev PyDict := List (String × PyVal)

/-- `d.get(k, default)`: the value stored under the first matching key,
or the default when the key is absent.  Note that a key that is present
with value `None` yields `None`, not the default. -/
def pyGet (d : PyDict) (k : String) (dflt : PyVal) : PyVal :=
  match d.find? (fun kv => kv.1 == k) with
  | some kv => kv.2
  | Option.none => dflt

/-- `pr_data.get(k, 'N/A')` interpolated into an f-string. -/
def fieldStr (d : PyDict) (k : String) : String :=
  (pyGet d k (.str "N/A")).interp

/-- `LLMSummarizer._format_pr_prompt` (src/src/core/summarizer.py):
the single-PR prompt template, reproduced verbatim. -/
def format_pr_prompt (pr_data : PyDict) : String :=
  "Please provide a concise summary of this pull request:\n\nTitle: "
  ++ fieldStr pr_data "title"
  ++ "\nDescription: "
  ++ fieldStr pr_data "body"
  ++ "\nCreated At: "
  ++ fieldStr pr_data "created_at"
  ++ "\nStatus: "
  ++ fieldStr pr_data "state"
  ++ "\n\nFocus on:\n1. The main purpose of the changes\n2. Key technical details\n3. Impact on the codebase\n\nSummary:"

/-- One PR block of `LLMSummarizer._format_all_prs_prompt`, for the PR
at (1-based) position `i`. -/
def prBlock (i : Nat) (pr : PyDict) : String :=
  "PR #" ++ toString i ++ ":\n"
  ++ "Title: " ++ fieldStr pr "title" ++ "\n"
  ++ "Description: " ++ fieldStr pr "body" ++ "\n"
  ++ "Created At: " ++ fieldStr pr "created_at" ++ "\n"
  ++ "Status: " ++ fieldStr pr "state" ++ "\n\n"

/-- `LLMSummarizer._format_all_prs_prompt` (src/src/core/summarizer.py):
the batched prompt enumerating every PR, reproduced verbatim. -/
def format_all_prs_prompt (prs : List PyDict) : String :=
  "Please provide concise summaries for each of these pull requests:\n\n"
  ++ String.join ((prs.enumFrom 1).map (fun p => prBlock p.1 p.2))
  ++ "For each PR, focus on:\n1. The main purpose of the changes\n2. Key technical details\n3. Impact on the codebase\n\nProvide the summaries in order, separated by \"---\" between each PR summary."

/-! ### Python string primitives

`str.strip` and `str.split("---")` are modelled on character lists, so
that the reconciliation step of `summarize_all` can be reasoned about. -/

/-- Python whitespace (the ASCII characters stripped by `str.strip()`). -/
def wsChar (c : Char) : Bool :=
  c == ' ' || c == '\t' || c == '\n' || c == '\r' || c == '\x0b' || c == '\x0c'

/-- Python `s.split("---")`: split on every non-overlapping occurrence of
`---`, scanning left to right, keeping empty fragments. -/
def splitDashes : List Char → List (List Char)
  | [] => [[]]
  | '-' :: '-' :: '-' :: rest => [] :: splitDashes rest
  | c :: rest =>
    match splitDashes rest with
    | [] => [[c]]
    | f :: fs => (c :: f) :: fs

/-- Append a character to the last fragment of a fragment list. -/
def appendLast (c : Char) : List (List Char) → List (List Char)
  | [] => []
  | [f] => [f ++ [c]]
  | f :: fs => f :: appendLast c fs

/-- Python `str.lstrip` on character lists. -/
def ltrimC (l : List Char) : List Char := l.dropWhile wsChar

/-- Python `str.rstrip` on character lists. -/
def rtrimC (l : List Char) : List Char := (l.reverse.dropWhile wsChar).reverse

/-- Python `str.strip` on character lists. -/
def pyStripC (l : List Char) : List Char := ltrimC (rtrimC l)

/-- Python `s.strip()` on strings. -/
def pyStrip (s : String) : String := String.mk (pyStripC s.data)

/-- Python `s.split("---")` on strings. -/
def pySplitDashes (s : String) : List String := (splitDashes s.data).map String.mk

/-- Python `s.split('/')` on character lists: split on every slash,
keeping empty fragments. -/
def splitSlash : List Char → List (List Char)
  | [] => [[]]
  | '/' :: rest => [] :: splitSlash rest
  | c :: rest =>
    match splitSlash rest with
    | [] => [[c]]
    | f :: fs => (c :: f) :: fs

/-- Python `s.split('/')` on strings. -/
def pySplitSlash (s : String) : List String := (splitSlash s.data).map String.mk

/-! ### The summarization engine (src/src/core/summarizer.py) -/

/-- `LLMConfig` (src/src/config/settings.py).  The Python `temperature`
float is modelled as a rational; it is only ever passed through to the
model backend. -/
structure LLMConfig where
  model_path : String
  context_window : Nat := 4096
  max_tokens : Nat := 512
  temperature : Rat := (7 : Rat) / 10
  n_threads : Nat := 4
  use_metal : Bool := true
  n_gpu_layers : Nat := 1

/-- The model backend (`llama_cpp.Llama.__call__`) as an oracle: a prompt
goes in, and either the generated text (`response['choices'][0]['text']`)
comes out or the backend raises with some message.  Generation parameters
(max_tokens, temperature, stop) are passed through unmodified by the code
and are elided here. -/
def ModelFn : Type := String → Except String String

/-- Observable effects of the summarization engine: a model-load attempt,
or one inference call with the given prompt. -/
inductive Event where
  | loadModel
  | modelCall (prompt : String)
deriving DecidableEq, Repr

/-- `LLMSummarizer` instance state: the config and the `self.model`
field, which is `None` until a model has been stored. -/
structure LLMSummarizer where
  config : LLMConfig
  model : Option ModelFn

/-- `LLMSummarizer.__init__`: sets `self.model = None` and then
immediately calls `self._load_model()`, which attempts the load and
re-raises on failure.  The `loader` oracle stands for
`llama_cpp.Llama(...)`.  Returns the constructed instance (or the
propagated exception) together with the events performed. -/
def LLMSummarizer.init (config : LLMConfig) (loader : Except String ModelFn) :
    Except String LLMSummarizer × List Event :=
  match loader with
  | .ok m => (.ok ⟨config, some m⟩, [.loadModel])
  | .error e => (.error e, [.loadModel])

/-- `LLMSummarizer.summarize`: raises `RuntimeError` if no model is
loaded; otherwise builds the single-PR prompt, calls the model, and
returns the stripped text — or the fixed string
`"Error generating summary"` if the backend raised. -/
def LLMSummarizer.summarize (self : LLMSummarizer) (pr_data : PyDict) :
    Except String String × List Event :=
  match self.model with
  | Option.none => (.error "RuntimeError: LLM model not loaded", [])
  | some m =>
    let prompt := format_pr_prompt pr_data
    match m prompt with
    | .ok response => (.ok (pyStrip response), [.modelCall prompt])
    | .error _ => (.ok "Error generating summary", [.modelCall prompt])

/-- The list-comprehension cleanup in `summarize_all`:
`[s.strip() for s in summaries if s.strip()]`. -/
def cleanFragments (fragments : List String) : List String :=
  (fragments.map pyStrip).filter (fun s => s ≠ "")

/-- The pad-or-truncate reconciliation of `summarize_all`:
`summaries[:len(prs)]` followed by the
`while len(summaries) < len(prs): summaries.append("Summary not available")`
loop. -/
def padOrTruncate (n : Nat) (summaries : List String) : List String :=
  let t := summaries.take n
  t ++ List.replicate (n - t.length) "Summary not available"

/-- `LLMSummarizer.summarize_all`: raises `RuntimeError` if no model is
loaded; otherwise builds the batched prompt and issues exactly one model
call.  On success the raw text is stripped, split on `"---"`, the
fragments are stripped, empty ones dropped, and the list is padded or
truncated to the input length whenever the counts differ.  If the model
call raises, a list of `"Error generating summary"` sentinels of the
input length is returned instead. -/
def LLMSummarizer.summarize_all (self : LLMSummarizer) (prs : List PyDict) :
    Except String (List String) × List Event :=
  match self.model with
  | Option.none => (.error "RuntimeError: LLM model not loaded", [])
  | some m =>
    let prompt := format_all_prs_prompt prs
    match m prompt with
    | .ok text =>
      let summaries := cleanFragments (pySplitDashes (pyStrip text))
      let reconciled :=
        if summaries.length ≠ prs.length then padOrTruncate prs.length summaries
        else summaries
      (.ok reconciled, [.modelCall prompt])
    | .error _ =>
      (.ok (List.replicate prs.length "Error generating summary"), [.modelCall prompt])

/-- `create_summarization_prompt` (src/llm_summarizer.py), reproduced
verbatim. -/
def create_summarization_prompt (pr_data : PyDict) : String :=
  "Please provide a detailed summary of the following GitHub Pull Request:\n\nTitle: "
  ++ fieldStr pr_data "title"
  ++ "\nRepository: "
  ++ fieldStr pr_data "repository_url"
  ++ "\nCreated At: "
  ++ fieldStr pr_data "created_at"
  ++ "\nDescription: "
  ++ fieldStr pr_data "body"
  ++ "\n\nPlease include:\n1. Key changes and features\n2. Technical details\n3. Impact and significance\n4. Any notable discussions or decisions\n\nFormat the summary in a clear, professional manner."

/-- `summarize_pr` (src/llm_summarizer.py): inside one `try`, constructs
a fresh `Llama` model, builds the prompt, calls the model and strips the
output; any exception — from the load or from inference — is caught and
replaced by the fixed string `"Error generating summary"`.  The function
always returns a string; it never propagates an exception. -/
def summarize_pr (pr_data : PyDict) (_config : LLMConfig) (_model_path : String)
    (loader : Except String ModelFn) : String × List Event :=
  match loader with
  | .error _ => ("Error generating summary", [.loadModel])
  | .ok llm =>
    let prompt := create_summarization_prompt pr_data
    match llm prompt with
    | .error _ => ("Error generating summary", [.loadModel, .modelCall prompt])
    | .ok output => (pyStrip output, [.loadModel, .modelCall prompt])

/-! ### The GitHub clients -/

/-- The fields of a PR object from the GitHub wire format that either
client implementation reads.  `body` may be JSON `null`. -/
structure WirePR where
  number : Int
  title : String
  body : PyVal
  state : String
  created_at : String
  html_url : String
  comments_url : String
  base_repo_html_url : String
  user_login : String
deriving DecidableEq, Repr

/-- An HTTP response from the PR listing endpoint: the status code and
the parsed JSON array it carries (GitHub's listing endpoint returns an
array of PR objects on success). -/
structure HttpListing where
  status : Nat
  prs : List WirePR
deriving DecidableEq, Repr

/-- An HTTP response from a PR's `comments_url`: the status code and the
`body` field of each comment object in the parsed JSON array. -/
structure HttpComments where
  status : Nat
  bodies : List String
deriving DecidableEq, Repr

namespace GithubClientPy
/-! `GitHubClient` of src/github_client.py. -/

/-- The per-PR processing in `get_recent_prs`: fetch the PR's comments
(best effort — a non-200 comment response degrades to no comments) and
build the result dict, with keys in the order the source writes them. -/
def processPR (fetchComments : String → HttpComments) (pr : WirePR) : PyDict :=
  let cresp := fetchComments pr.comments_url
  let comments := if cresp.status = 200 then cresp.bodies else []
  [("title", .str pr.title),
   ("repository_url", .str pr.html_url),
   ("created_at", .str pr.created_at),
   ("state", .str pr.state),
   ("number", .int pr.number),
   ("body", pr.body),
   ("comments", .strList comments)]

/-- `GitHubClient.get_recent_prs` (src/github_client.py): builds the
listing URL with `repo` substituted unchecked, issues the GET, returns
`[]` on any status other than 200, and otherwise processes each returned
PR in order, fetching its comments.  The second component lists the URLs
requested, in order.  The function never raises. -/
def get_recent_prs (repo : String) (_count : Nat) (listing : HttpListing)
    (fetchComments : String → HttpComments) : List PyDict × List String :=
  let url := "https://api.github.com/repos/" ++ repo ++ "/pulls"
  if listing.status ≠ 200 then ([], [url])
  else (listing.prs.map (processPR fetchComments),
        url :: listing.prs.map (fun pr => pr.comments_url))

end GithubClientPy

namespace CoreGithub
/-! `GitHubClient` of src/src/core/github.py. -/

/-- The dict built for one PR by `get_recent_prs`, keys in source order.
This variant never touches the PR's comments. -/
def record (pr : WirePR) : PyDict :=
  [("number", .int pr.number),
   ("title", .str pr.title),
   ("body", pr.body),
   ("state", .str pr.state),
   ("created_at", .str pr.created_at),
   ("repository_url", .str pr.base_repo_html_url),
   ("user", .str pr.user_login)]

/-- `GitHubClient.get_recent_prs` (src/src/core/github.py):
`owner, repo_name = repo.split('/')` runs before the `try` block, so a
`repo` that does not split into exactly two parts raises an uncaught
`ValueError` before any HTTP request.  Otherwise one GET is issued;
`_make_request` calls `raise_for_status()`, which raises exactly for the
client-error and server-error statuses 400–599, and that exception is
caught by the outer `except`, yielding `[]`.  For any other status —
including non-2xx statuses outside 400–599 — nothing raises and the
parsed body is processed into records.  The second component lists the
endpoints requested. -/
def get_recent_prs (repo : String) (resp : HttpListing) :
    Except String (List PyDict) × List String :=
  match pySplitSlash repo with
  | [owner, repo_name] =>
    let endpoint := "repos/" ++ owner ++ "/" ++ repo_name ++ "/pulls"
    if 400 ≤ resp.status ∧ resp.status < 600 then (.ok [], [endpoint])
    else (.ok (resp.prs.map record), [endpoint])
  | _ => (.error "ValueError: unpacking repo.split", [])

end CoreGithub

/-- Formalisation of the spec's `owner/name` well-formedness condition:
exactly one slash separating a nonempty owner from a nonempty name.
(Stated from the spec's words, for comparison with what the code
checks.) -/
def matchesOwnerName (repo : String) : Bool :=
  match pySplitSlash repo with
  | [owner, name] => owner ≠ "" && name ≠ ""
  | _ => false

/-- 2xx success statuses. -/
def is2xx (status : Nat) : Bool := 200 ≤ status && status < 300

/-! ## Concrete fixtures used by witnesses and counterexamples -/

/-- A concrete `LLMConfig` (the defaults of src/src/config/settings.py). -/
def cfgEx : LLMConfig := ⟨"models/mistral-7b-instruct-v0.2.Q4_K_M.gguf", 4096, 512, (7 : Rat) / 10, 4, true, 1⟩

/-- A model backend that answers every prompt with two summaries
separated by `---` (the spec's end-to-end scenario). -/
def mEx : ModelFn := fun _ => .ok "Summary A\n---\nSummary B"

/-- A model backend that raises on every call. -/
def mErr : ModelFn := fun _ => .error "inference failed"

/-- A model backend that answers with a single block of text containing
no separator. -/
def mNoSep : ModelFn := fun _ => .ok "  one single summary  "

/-- PR dict #10 "Fix bug" of the spec's end-to-end scenario. -/
def prEx1 : PyDict :=
  [("title", .str "Fix bug"), ("body", .str "fixes a bug"),
   ("created_at", .str "2024-01-01T00:00:00Z"), ("state", .str "open"),
   ("number", .int 10)]

/-- PR dict #11 "Add feature", with a `None` body as GitHub delivers for
an empty PR description. -/
def prEx2 : PyDict :=
  [("title", .str "Add feature"), ("body", PyVal.none),
   ("created_at", .str "2024-01-02T00:00:00Z"), ("state", .str "closed"),
   ("number", .int 11)]

/-- A third PR dict, for the three-PR scenarios. -/
def prEx3 : PyDict :=
  [("title", .str "Refactor"), ("body", .str "cleanup"),
   ("created_at", .str "2024-01-03T00:00:00Z"), ("state", .str "open"),
   ("number", .int 12)]

/-- A wire PR object as the listing endpoint returns it. -/
def wireEx1 : WirePR :=
  ⟨10, "Fix bug", .str "fixes a bug", "open", "2024-01-01T00:00:00Z",
   "https://github.com/acme/widgets/pull/10",
   "https://api.github.com/repos/acme/widgets/issues/10/comments",
   "https://github.com/acme/widgets", "alice"⟩

/-- A second wire PR object, with a `null` body. -/
def wireEx2 : WirePR :=
  ⟨11, "Add feature", PyVal.none, "closed", "2024-01-02T00:00:00Z",
   "https://github.com/acme/widgets/pull/11",
   "https://api.github.com/repos/acme/widgets/issues/11/comments",
   "https://github.com/acme/widgets", "bob"⟩

/-- A successful listing response carrying the two wire PRs. -/
def listingOk : HttpListing := ⟨200, [wireEx1, wireEx2]⟩

/-- A 404 listing response (GitHub's error body is not a PR array). -/
def listing404 : HttpListing := ⟨404, []⟩

/-- A non-2xx listing response outside the 400–599 range that
`raise_for_status` raises for, carrying a parseable PR array. -/
def listing304 : HttpListing := ⟨304, [wireEx1]⟩

/-- A comments transport that fails every fetch with a 403. -/
def commentsDown : String → HttpComments := fun _ => ⟨403, []⟩

/-! ## Lemmas about the split/strip primitives -/

theorem splitDashes_ne_nil (s : List Char) : splitDashes s ≠ [] := by
  induction s using splitDashes.induct with
  | case1 => simp [splitDashes]
  | case2 rest ih => simp [splitDashes]
  | case3 c rest h hnil ih => exact absurd hnil ih
  | case4 c rest h f fs hfs ih =>
    rw [splitDashes.eq_3 c rest h, hfs]
    simp

/-- Under a non-dash head, split conses the head onto the first fragment. -/
theorem splitDashes_cons_ne (c : Char) (s : List Char) (hc : c ≠ '-')
    (f : List Char) (fs : List (List Char)) (hs : splitDashes s = f :: fs) :
    splitDashes (c :: s) = (c :: f) :: fs := by
  rw [splitDashes.eq_3 c s (fun r h1 _ => hc h1), hs]

theorem ws_ne_dash {c : Char} (h : wsChar c = true) : c ≠ '-' := by
  intro hc
  subst hc
  simp [wsChar] at h

theorem appendLast_cons₂ (c : Char) (f : List Char) (l : List (List Char))
    (hl : l ≠ []) : appendLast c (f :: l) = f :: appendLast c l := by
  match l, hl with
  | g :: gs, _ => rfl

/-- Appending a non-dash character extends the last fragment of the split. -/
theorem splitDashes_append_ne (s : List Char) (c : Char) (hc : c ≠ '-') :
    splitDashes (s ++ [c]) = appendLast c (splitDashes s) := by
  induction s using splitDashes.induct with
  | case1 =>
    rw [List.nil_append,
      splitDashes_cons_ne c [] hc [] [] (by simp [splitDashes])]
    rfl
  | case2 rest ih =>
    have hstep : ('-' :: '-' :: '-' :: rest) ++ [c]
        = '-' :: '-' :: '-' :: (rest ++ [c]) := rfl
    rw [hstep]
    show [] :: splitDashes (rest ++ [c]) = appendLast c ([] :: splitDashes rest)
    rw [ih, appendLast_cons₂ c [] (splitDashes rest) (splitDashes_ne_nil rest)]
  | case3 c' rest h hnil ih => exact absurd hnil (splitDashes_ne_nil rest)
  | case4 c' rest h f fs hfs ih =>
    have h' : ∀ r₁, c' = '-' → rest ++ [c] = '-' :: '-' :: r₁ → False := by
      intro r₁ hc' heq
      match rest, heq with
      | [], heq =>
        simp at heq
      | [a], heq =>
        simp at heq
        exact hc heq.2.1
      | a :: b :: t, heq =>
        simp at heq
        exact h t hc' (by simp [heq.1, heq.2.1])
    have hsplit : (c' :: rest) ++ [c] = c' :: (rest ++ [c]) := rfl
    rw [hsplit, splitDashes.eq_3 c' (rest ++ [c]) h', ih, hfs,
        splitDashes.eq_3 c' rest h, hfs]
    cases fs with
    | nil => rfl
    | cons g gs => rfl

theorem rtrimC_eq_rdropWhile (l : List Char) :
    rtrimC l = List.rdropWhile wsChar l := rfl

theorem ltrimC_cons_ws {c : Char} (h : wsChar c = true) (l : List Char) :
    ltrimC (c :: l) = ltrimC l := by
  simp [ltrimC, List.dropWhile_cons, h]

theorem pyStripC_cons_ws {c : Char} (h : wsChar c = true) (f : List Char) :
    pyStripC (c :: f) = pyStripC f := by
  unfold pyStripC
  unfold rtrimC
  rw [show (c :: f).reverse = f.reverse ++ [c] by simp]
  rw [List.dropWhile_append]
  by_cases hf : (f.reverse.dropWhile wsChar).isEmpty
  · have hnil : List.dropWhile wsChar f.reverse = [] := by
      simpa [List.isEmpty_iff] using hf
    simp [hf, hnil, List.dropWhile_cons, h]
  · rw [if_neg hf, List.reverse_append]
    simp only [List.reverse_cons, List.reverse_nil, List.nil_append,
      List.singleton_append]
    exact ltrimC_cons_ws h _

theorem pyStripC_append_ws {c : Char} (h : wsChar c = true) (f : List Char) :
    pyStripC (f ++ [c]) = pyStripC f := by
  unfold pyStripC
  rw [rtrimC_eq_rdropWhile, rtrimC_eq_rdropWhile,
    List.rdropWhile_concat_pos _ _ _ h]

theorem map_pyStripC_splitDashes_cons_ws {c : Char} (h : wsChar c = true)
    (s : List Char) :
    (splitDashes (c :: s)).map pyStripC = (splitDashes s).map pyStripC := by
  obtain ⟨f, fs, hfs⟩ := List.exists_cons_of_ne_nil (splitDashes_ne_nil s)
  rw [splitDashes_cons_ne c s (ws_ne_dash h) f fs hfs, hfs]
  simp [pyStripC_cons_ws h]

theorem map_pyStripC_splitDashes_ltrim (s : List Char) :
    (splitDashes (ltrimC s)).map pyStripC = (splitDashes s).map pyStripC := by
  induction s with
  | nil => rfl
  | cons c t ih =>
    by_cases h : wsChar c
    · rw [ltrimC_cons_ws h, ih, map_pyStripC_splitDashes_cons_ws h]
    · rw [show ltrimC (c :: t) = c :: t from by
        simp [ltrimC, List.dropWhile_cons, h]]

theorem map_pyStripC_appendLast_ws {c : Char} (h : wsChar c = true)
    (l : List (List Char)) :
    (appendLast c l).map pyStripC = l.map pyStripC := by
  induction l with
  | nil => rfl
  | cons f fs ih =>
    cases fs with
    | nil => simp [appendLast, pyStripC_append_ws h]
    | cons g gs =>
      rw [appendLast_cons₂ c f (g :: gs) (by simp)]
      simp only [List.map_cons] at *
      rw [ih]

theorem map_pyStripC_splitDashes_append_ws (s t : List Char)
    (ht : ∀ c ∈ t, wsChar c = true) :
    (splitDashes (s ++ t)).map pyStripC = (splitDashes s).map pyStripC := by
  induction t generalizing s with
  | nil => rw [List.append_nil]
  | cons c t' ih =>
    have hc : wsChar c = true := ht c (by simp)
    rw [show s ++ c :: t' = (s ++ [c]) ++ t' from by simp]
    rw [ih (s ++ [c]) (fun d hd => ht d (by simp [hd]))]
    rw [splitDashes_append_ne s c (ws_ne_dash hc)]
    exact map_pyStripC_appendLast_ws hc _

theorem exists_ws_suffix (s : List Char) :
    ∃ t, s = rtrimC s ++ t ∧ ∀ c ∈ t, wsChar c = true := by
  refine ⟨(s.reverse.takeWhile wsChar).reverse, ?_, ?_⟩
  · calc s = s.reverse.reverse := (List.reverse_reverse s).symm
    _ = (List.takeWhile wsChar s.reverse
          ++ List.dropWhile wsChar s.reverse).reverse := by
        rw [List.takeWhile_append_dropWhile]
    _ = (List.dropWhile wsChar s.reverse).reverse
          ++ (List.takeWhile wsChar s.reverse).reverse := by
        rw [List.reverse_append]
  · intro c hc
    rw [List.mem_reverse] at hc
    exact List.mem_takeWhile_imp hc

/-- Stripping the whole string before splitting on `---` changes nothing
once every fragment is stripped: the outer strip only removes leading and
trailing whitespace of the first and last fragments. -/
theorem map_pyStripC_splitDashes_strip (s : List Char) :
    (splitDashes (pyStripC s)).map pyStripC = (splitDashes s).map pyStripC := by
  have hdef : pyStripC s = ltrimC (rtrimC s) := rfl
  rw [hdef, map_pyStripC_splitDashes_ltrim]
  obtain ⟨t, hst, hws⟩ := exists_ws_suffix s
  conv_rhs => rw [hst]
  exact (map_pyStripC_splitDashes_append_ws _ t hws).symm

/-- String-level corollary: the code's strip-before-split produces the
same cleaned fragment list as splitting the raw output directly, the
processing the specification describes. -/
theorem cleanFragments_strip (raw : String) :
    cleanFragments (pySplitDashes (pyStrip raw))
      = cleanFragments (pySplitDashes raw) := by
  have key : (pySplitDashes (pyStrip raw)).map pyStrip
      = (pySplitDashes raw).map pyStrip := by
    show ((splitDashes (pyStripC raw.data)).map String.mk).map pyStrip
        = ((splitDashes raw.data).map String.mk).map pyStrip
    rw [List.map_map, List.map_map]
    have h1 : (pyStrip ∘ String.mk : List Char → String) = String.mk ∘ pyStripC := rfl
    rw [h1, ← List.map_map, ← List.map_map, map_pyStripC_splitDashes_strip]
  show ((pySplitDashes (pyStrip raw)).map pyStrip).filter (fun s => s ≠ "")
      = ((pySplitDashes raw).map pyStrip).filter (fun s => s ≠ "")
  rw [key]

theorem padOrTruncate_length (n : Nat) (l : List String) :
    (padOrTruncate n l).length = n := by
  unfold padOrTruncate
  simp only [List.length_append, List.length_take, List.length_replicate]
  omega

theorem padOrTruncate_eq_self {n : Nat} {l : List String}
    (h : l.length = n) : padOrTruncate n l = l := by
  unfold padOrTruncate
  rw [List.take_of_length_le (by omega)]
  simp [h]

theorem padOrTruncate_zero (l : List String) : padOrTruncate 0 l = [] := rfl

/-- `summarize_all` on the empty PR list: one model call is issued and
the empty list is returned, whatever the backend answers. -/
theorem summarize_all_nil (cfg : LLMConfig) (m : ModelFn) :
    LLMSummarizer.summarize_all ⟨cfg, some m⟩ []
      = (.ok [], [.modelCall (format_all_prs_prompt [])]) := by
  unfold LLMSummarizer.summarize_all
  dsimp only
  cases hm : m (format_all_prs_prompt []) with
  | ok text =>
    by_cases h : (cleanFragments (pySplitDashes (pyStrip text))).length = 0
    · simp [List.length_eq_zero.mp h]
    · simp [h, padOrTruncate_zero]
  | error e => rfl

/-! ## The claims -/

/-- C1: for every input list of N pull requests and every string the model
returns for the batched prompt, `summarize_all` returns exactly N
summaries in input order: the raw output is split on `---`, each fragment
trimmed, empty fragments discarded; if fewer than N fragments remain the
list is padded with the `"Summary not available"` sentinel up to length
N, and if more remain it is truncated to the first N.  (The code strips
the raw output before splitting; by `cleanFragments_strip` that is
observationally the same processing.) -/
theorem claim_C1 (cfg : LLMConfig) (m : ModelFn) (prs : List PyDict)
    (raw : String) (hm : m (format_all_prs_prompt prs) = .ok raw) :
    (LLMSummarizer.summarize_all ⟨cfg, some m⟩ prs).1
      = .ok (padOrTruncate prs.length (cleanFragments (pySplitDashes raw)))
    ∧ (padOrTruncate prs.length (cleanFragments (pySplitDashes raw))).length
      = prs.length := by
  refine ⟨?_, padOrTruncate_length _ _⟩
  unfold LLMSummarizer.summarize_all
  simp only [hm, cleanFragments_strip]
  by_cases h : (cleanFragments (pySplitDashes raw)).length = prs.length
  · simp only [h, ne_eq, not_true_eq_false, if_false, ite_false]
    rw [padOrTruncate_eq_self h]
  · simp [h]

/-- Witness for C1 at the spec's end-to-end scenario: two PRs, model
output `"Summary A\n---\nSummary B"`. -/
theorem claim_C1_witness :
    mEx (format_all_prs_prompt [prEx1, prEx2]) = .ok "Summary A\n---\nSummary B"
    ∧ ((LLMSummarizer.summarize_all ⟨cfgEx, some mEx⟩ [prEx1, prEx2]).1
        = .ok (padOrTruncate 2
            (cleanFragments (pySplitDashes "Summary A\n---\nSummary B")))
      ∧ (padOrTruncate 2
            (cleanFragments (pySplitDashes "Summary A\n---\nSummary B"))).length = 2) :=
  ⟨rfl, claim_C1 cfgEx mEx [prEx1, prEx2] "Summary A\n---\nSummary B" rfl⟩

/-- C2 counterexample: on the empty PR list, `summarize_all` does return
the empty sequence — but it performs one model call, not zero: there is
no empty-input short-circuit in the code, so the batched prompt is built
and sent. -/
theorem claim_C2_counterexample :
    (LLMSummarizer.summarize_all ⟨cfgEx, some mEx⟩ []).1 = .ok []
    ∧ (LLMSummarizer.summarize_all ⟨cfgEx, some mEx⟩ []).2
        = [Event.modelCall (format_all_prs_prompt [])] :=
  ⟨rfl, rfl⟩

/-- C2 (amended): for the empty input list, `summarize_all` returns the
empty sequence, but it performs exactly one model call (with the batched
prompt for zero PRs) rather than zero. -/
theorem claim_C2 (cfg : LLMConfig) (m : ModelFn) :
    (LLMSummarizer.summarize_all ⟨cfg, some m⟩ []).1 = .ok []
    ∧ (LLMSummarizer.summarize_all ⟨cfg, some m⟩ []).2
        = [Event.modelCall (format_all_prs_prompt [])] := by
  rw [summarize_all_nil]
  exact ⟨rfl, rfl⟩

/-- C10: for every non-empty input list of N PRs, if the single batched
model call raises, `summarize_all` still returns a sequence of exactly N
elements, each the `"Error generating summary"` sentinel — a different
string from the `"Summary not available"` padding sentinel. -/
theorem claim_C10 (cfg : LLMConfig) (m : ModelFn) (prs : List PyDict)
    (e : String) (_hne : prs ≠ [])
    (hm : m (format_all_prs_prompt prs) = .error e) :
    (LLMSummarizer.summarize_all ⟨cfg, some m⟩ prs).1
      = .ok (List.replicate prs.length "Error generating summary")
    ∧ (List.replicate prs.length "Error generating summary").length = prs.length
    ∧ "Error generating summary" ≠ "Summary not available" := by
  refine ⟨?_, List.length_replicate _ _, by decide⟩
  unfold LLMSummarizer.summarize_all
  simp only [hm]

/-- Witness for C10: three PRs, backend raising on the batched call. -/
theorem claim_C10_witness :
    ([prEx1, prEx2, prEx3] : List PyDict) ≠ []
    ∧ mErr (format_all_prs_prompt [prEx1, prEx2, prEx3]) = .error "inference failed"
    ∧ ((LLMSummarizer.summarize_all ⟨cfgEx, some mErr⟩ [prEx1, prEx2, prEx3]).1
        = .ok (List.replicate 3 "Error generating summary")
      ∧ (List.replicate 3 "Error generating summary").length = 3
      ∧ "Error generating summary" ≠ "Summary not available") :=
  ⟨by simp, rfl,
   claim_C10 cfgEx mErr [prEx1, prEx2, prEx3] "inference failed" (by simp) rfl⟩

/-- C3 counterexample: the claim fails for src/src/core/github.py at a
non-2xx response outside the 400–599 range.  `raise_for_status()` raises
only for statuses 400–599, so a 304 response whose body parses as a PR
array makes `get_recent_prs` return that PR's record — a non-empty
sequence — instead of `[]`. -/
theorem claim_C3_counterexample :
    is2xx listing304.status = false
    ∧ CoreGithub.get_recent_prs "acme/widgets" listing304
        = (.ok [CoreGithub.record wireEx1], ["repos/acme/widgets/pulls"])
    ∧ ([CoreGithub.record wireEx1] : List PyDict) ≠ [] :=
  ⟨by decide, rfl, by decide⟩

/-- C3 (amended): for every repository identifier and every non-2xx
listing response, src/github_client.py's `get_recent_prs` returns an
empty sequence and does not raise (it tests `!= 200`).  For
src/src/core/github.py the empty sequence is returned exactly for the
statuses 400–599 that `raise_for_status()` raises for (the surrounding
`except` converts the exception to `[]`); a status outside that range —
2xx, but also non-2xx statuses such as 3xx — does not raise either, and
yields the parsed records rather than an empty sequence. -/
theorem claim_C3 :
    (∀ (repo : String) (count : Nat) (listing : HttpListing)
        (fetchComments : String → HttpComments),
        is2xx listing.status = false →
        GithubClientPy.get_recent_prs repo count listing fetchComments
          = ([], ["https://api.github.com/repos/" ++ repo ++ "/pulls"]))
    ∧ (∀ (repo owner name : String) (resp : HttpListing),
        pySplitSlash repo = [owner, name] →
        400 ≤ resp.status → resp.status < 600 →
        CoreGithub.get_recent_prs repo resp
          = (.ok [], ["repos/" ++ owner ++ "/" ++ name ++ "/pulls"]))
    ∧ (∀ (repo owner name : String) (resp : HttpListing),
        pySplitSlash repo = [owner, name] →
        ¬ (400 ≤ resp.status ∧ resp.status < 600) →
        CoreGithub.get_recent_prs repo resp
          = (.ok (resp.prs.map CoreGithub.record),
             ["repos/" ++ owner ++ "/" ++ name ++ "/pulls"])) := by
  refine ⟨?_, ?_, ?_⟩
  · intro repo count listing fetchComments h2xx
    have hne : listing.status ≠ 200 := by
      intro h200
      rw [h200] at h2xx
      simp [is2xx] at h2xx
    unfold GithubClientPy.get_recent_prs
    rw [if_pos hne]
  · intro repo owner name resp hsplit h400 h600
    unfold CoreGithub.get_recent_prs
    rw [hsplit]
    simp only [if_pos (And.intro h400 h600)]
  · intro repo owner name resp hsplit hout
    unfold CoreGithub.get_recent_prs
    rw [hsplit]
    simp only [if_neg hout]

/-- Witness for C3 (amended): a 404 against both clients, and a 304
with a parseable body against the core client. -/
theorem claim_C3_witness :
    is2xx listing404.status = false
    ∧ GithubClientPy.get_recent_prs "acme/widgets" 10 listing404 commentsDown
        = ([], ["https://api.github.com/repos/acme/widgets/pulls"])
    ∧ pySplitSlash "acme/widgets" = ["acme", "widgets"]
    ∧ 400 ≤ listing404.status
    ∧ listing404.status < 600
    ∧ CoreGithub.get_recent_prs "acme/widgets" listing404
        = (.ok [], ["repos/acme/widgets/pulls"])
    ∧ ¬ (400 ≤ listing304.status ∧ listing304.status < 600)
    ∧ CoreGithub.get_recent_prs "acme/widgets" listing304
        = (.ok (listing304.prs.map CoreGithub.record),
           ["repos/acme/widgets/pulls"]) :=
  ⟨rfl, claim_C3.1 "acme/widgets" 10 listing404 commentsDown rfl,
   by decide, by decide, by decide,
   claim_C3.2.1 "acme/widgets" "acme" "widgets" listing404 (by decide)
     (by decide) (by decide),
   by decide,
   claim_C3.2.2 "acme/widgets" "acme" "widgets" listing304 (by decide)
     (by decide)⟩

/-- C4: for every well-formed `owner/repo` input and a successful listing
response carrying K PR objects, `get_recent_prs` returns exactly K
records in the order received.  In src/src/core/github.py the records
never contain a `comments` key (comments are never fetched there); in
src/github_client.py comments are separately fetched per PR, and when
that separate fetch fails the record's comments are empty. -/
theorem claim_C4 :
    (∀ (repo : String) (count : Nat) (listing : HttpListing)
        (f : String → HttpComments), listing.status = 200 →
        (GithubClientPy.get_recent_prs repo count listing f).1.length
            = listing.prs.length
        ∧ (∀ i : Nat, (GithubClientPy.get_recent_prs repo count listing f).1[i]?
            = (listing.prs[i]?).map (GithubClientPy.processPR f))
        ∧ (∀ pr : WirePR, (f pr.comments_url).status ≠ 200 →
            pyGet (GithubClientPy.processPR f pr) "comments" PyVal.none
              = PyVal.strList []))
    ∧ (∀ (repo owner name : String) (resp : HttpListing),
        pySplitSlash repo = [owner, name] → is2xx resp.status = true →
        (CoreGithub.get_recent_prs repo resp).1
            = .ok (resp.prs.map CoreGithub.record)
        ∧ ∀ pr : WirePR,
            (CoreGithub.record pr).find? (fun kv => kv.1 == "comments")
              = Option.none) := by
  constructor
  · intro repo count listing f h200
    have hcond : ¬ listing.status ≠ 200 := by simp [h200]
    refine ⟨?_, ?_, ?_⟩
    · unfold GithubClientPy.get_recent_prs
      rw [if_neg hcond]
      exact List.length_map _ _
    · intro i
      unfold GithubClientPy.get_recent_prs
      rw [if_neg hcond]
      exact List.getElem?_map _ _ _
    · intro pr hc
      unfold GithubClientPy.processPR pyGet
      dsimp only
      rw [if_neg hc]
      rfl
  · intro repo owner name resp hsplit h2xx
    have h400 : ¬ (400 ≤ resp.status ∧ resp.status < 600) := by
      simp only [is2xx, Bool.and_eq_true, decide_eq_true_eq] at h2xx
      omega
    constructor
    · unfold CoreGithub.get_recent_prs
      rw [hsplit]
      simp only [if_neg h400]
    · intro pr
      rfl

/-- Witness for C4: a 200 listing of two PRs, with the comments endpoint
failing, against both clients. -/
theorem claim_C4_witness :
    listingOk.status = 200
    ∧ (GithubClientPy.get_recent_prs "acme/widgets" 10 listingOk commentsDown).1.length = 2
    ∧ (GithubClientPy.get_recent_prs "acme/widgets" 10 listingOk commentsDown).1[0]?
        = (listingOk.prs[0]?).map (GithubClientPy.processPR commentsDown)
    ∧ (commentsDown wireEx1.comments_url).status ≠ 200
    ∧ pyGet (GithubClientPy.processPR commentsDown wireEx1) "comments" PyVal.none
        = PyVal.strList []
    ∧ pySplitSlash "acme/widgets" = ["acme", "widgets"]
    ∧ is2xx listingOk.status = true
    ∧ (CoreGithub.get_recent_prs "acme/widgets" listingOk).1
        = .ok (listingOk.prs.map CoreGithub.record) :=
  ⟨rfl,
   (claim_C4.1 "acme/widgets" 10 listingOk commentsDown rfl).1,
   (claim_C4.1 "acme/widgets" 10 listingOk commentsDown rfl).2.1 0,
   by decide,
   (claim_C4.1 "acme/widgets" 10 listingOk commentsDown rfl).2.2 wireEx1 (by decide),
   by decide, rfl,
   (claim_C4.2 "acme/widgets" "acme" "widgets" listingOk (by decide) rfl).1⟩

/-- C5 counterexample: a `title`/`body` key that is present with value
null renders as the Python string `None`, not as the `N/A` sentinel:
`dict.get(key, default)` only falls back to the default when the key is
absent. -/
theorem claim_C5_counterexample :
    fieldStr [("title", PyVal.none)] "title" = "None"
    ∧ fieldStr [("title", PyVal.none)] "title" ≠ "N/A"
    ∧ format_pr_prompt [("title", PyVal.none), ("body", PyVal.none)]
        = "Please provide a concise summary of this pull request:\n\nTitle: None\nDescription: None\nCreated At: N/A\nStatus: N/A\n\nFocus on:\n1. The main purpose of the changes\n2. Key technical details\n3. Impact on the codebase\n\nSummary:" :=
  ⟨rfl, by decide, rfl⟩

/-- C5 (amended): a missing `title`/`body` key renders as the literal
`N/A` sentinel and never crashes, but a key present with a null value
renders as the Python string `None`. -/
theorem claim_C5 (d : PyDict) :
    (d.find? (fun kv => kv.1 == "title") = Option.none →
      fieldStr d "title" = "N/A")
    ∧ (pyGet d "title" (.str "N/A") = PyVal.none → fieldStr d "title" = "None")
    ∧ (d.find? (fun kv => kv.1 == "body") = Option.none →
      fieldStr d "body" = "N/A")
    ∧ (pyGet d "body" (.str "N/A") = PyVal.none → fieldStr d "body" = "None")
    ∧ format_pr_prompt d
        = "Please provide a concise summary of this pull request:\n\nTitle: "
          ++ fieldStr d "title" ++ "\nDescription: " ++ fieldStr d "body"
          ++ "\nCreated At: " ++ fieldStr d "created_at" ++ "\nStatus: "
          ++ fieldStr d "state"
          ++ "\n\nFocus on:\n1. The main purpose of the changes\n2. Key technical details\n3. Impact on the codebase\n\nSummary:" := by
  refine ⟨?_, ?_, ?_, ?_, rfl⟩
  · intro h
    unfold fieldStr pyGet
    rw [h]
    rfl
  · intro h
    unfold fieldStr
    rw [h]
    rfl
  · intro h
    unfold fieldStr pyGet
    rw [h]
    rfl
  · intro h
    unfold fieldStr
    rw [h]
    rfl

/-- Witness for C5 (amended): the missing-key and null-value cases. -/
theorem claim_C5_witness :
    fieldStr [] "title" = "N/A"
    ∧ fieldStr [("title", PyVal.none)] "title" = "None" :=
  ⟨(claim_C5 []).1 rfl, (claim_C5 [("title", PyVal.none)]).2.1 rfl⟩

/-- C6 counterexample: `LLMSummarizer.__init__` performs the model load
during construction (not on first use), and the src/llm_summarizer.py
variant loads a fresh model on every `summarize_pr` call, so two calls
load twice rather than reusing one instance. -/
theorem claim_C6_counterexample :
    (LLMSummarizer.init cfgEx (.ok mEx)).2 = [Event.loadModel]
    ∧ (summarize_pr prEx1 cfgEx "models/m.gguf" (.ok mEx)).2
        ++ (summarize_pr prEx2 cfgEx "models/m.gguf" (.ok mEx)).2
      = [Event.loadModel, Event.modelCall (create_summarization_prompt prEx1),
         Event.loadModel, Event.modelCall (create_summarization_prompt prEx2)] :=
  ⟨rfl, rfl⟩

/-- C6 (amended): in src/src/core/summarizer.py the model is loaded
exactly once per `LLMSummarizer` instance, eagerly at construction, and
no `summarize`/`summarize_all` call ever reloads it; in
src/llm_summarizer.py every `summarize_pr` call starts by loading a
fresh model. -/
theorem claim_C6 :
    (∀ (cfg : LLMConfig) (loader : Except String ModelFn),
        (LLMSummarizer.init cfg loader).2 = [Event.loadModel])
    ∧ (∀ (s : LLMSummarizer) (pr : PyDict),
        Event.loadModel ∉ (s.summarize pr).2)
    ∧ (∀ (s : LLMSummarizer) (prs : List PyDict),
        Event.loadModel ∉ (s.summarize_all prs).2)
    ∧ (∀ (pr : PyDict) (cfg : LLMConfig) (mp : String)
        (loader : Except String ModelFn),
        (summarize_pr pr cfg mp loader).2.head? = some Event.loadModel) := by
  refine ⟨?_, ?_, ?_, ?_⟩
  · intro cfg loader
    cases loader <;> rfl
  · intro s pr
    unfold LLMSummarizer.summarize
    cases s.model with
    | none => simp
    | some m =>
      dsimp only
      cases hm : m (format_pr_prompt pr) <;> simp
  · intro s prs
    unfold LLMSummarizer.summarize_all
    cases s.model with
    | none => simp
    | some m =>
      dsimp only
      cases hm : m (format_all_prs_prompt prs) <;> simp
  · intro pr cfg mp loader
    unfold summarize_pr
    cases loader with
    | error e => rfl
    | ok llm =>
      dsimp only
      cases hm : llm (create_summarization_prompt pr) <;> rfl

/-- C7: if the model backend fails during a single-PR summarization —
a load failure or an inference error — the operation does not propagate
the exception: it returns the fixed string `"Error generating summary"`.
This covers `LLMSummarizer.summarize` (inference error; the load happens
at construction there) and `summarize_pr` of src/llm_summarizer.py,
whose `try` block covers both the load and the inference. -/
theorem claim_C7 :
    (∀ (cfg : LLMConfig) (m : ModelFn) (pr : PyDict) (e : String),
        m (format_pr_prompt pr) = .error e →
        (LLMSummarizer.summarize ⟨cfg, some m⟩ pr).1
          = .ok "Error generating summary")
    ∧ (∀ (pr : PyDict) (cfg : LLMConfig) (mp e : String),
        (summarize_pr pr cfg mp (.error e)).1 = "Error generating summary")
    ∧ (∀ (pr : PyDict) (cfg : LLMConfig) (mp : String) (llm : ModelFn)
        (e : String), llm (create_summarization_prompt pr) = .error e →
        (summarize_pr pr cfg mp (.ok llm)).1 = "Error generating summary") := by
  refine ⟨?_, ?_, ?_⟩
  · intro cfg m pr e hm
    unfold LLMSummarizer.summarize
    simp only [hm]
  · intro pr cfg mp e
    rfl
  · intro pr cfg mp llm e hm
    unfold summarize_pr
    simp only [hm]

/-- Witness for C7: a backend whose inference call raises, and a loader
that raises. -/
theorem claim_C7_witness :
    mErr (format_pr_prompt prEx1) = .error "inference failed"
    ∧ (LLMSummarizer.summarize ⟨cfgEx, some mErr⟩ prEx1).1
        = .ok "Error generating summary"
    ∧ (summarize_pr prEx1 cfgEx "models/m.gguf"
        (.error "model file missing")).1 = "Error generating summary"
    ∧ (summarize_pr prEx1 cfgEx "models/m.gguf" (.ok mErr)).1
        = "Error generating summary" :=
  ⟨rfl, claim_C7.1 cfgEx mErr prEx1 "inference failed" rfl,
   claim_C7.2.1 prEx1 cfgEx "models/m.gguf" "model file missing",
   claim_C7.2.2 prEx1 cfgEx "models/m.gguf" mErr "inference failed" rfl⟩

/-- C8: prompt construction is a deterministic function of the PR's
title, body, created-at and state values: two dicts whose lookups of
those four keys agree produce byte-identical single-PR prompts — the
template has no other inputs. -/
theorem claim_C8 (d₁ d₂ : PyDict)
    (ht : pyGet d₁ "title" (.str "N/A") = pyGet d₂ "title" (.str "N/A"))
    (hb : pyGet d₁ "body" (.str "N/A") = pyGet d₂ "body" (.str "N/A"))
    (hc : pyGet d₁ "created_at" (.str "N/A") = pyGet d₂ "created_at" (.str "N/A"))
    (hs : pyGet d₁ "state" (.str "N/A") = pyGet d₂ "state" (.str "N/A")) :
    format_pr_prompt d₁ = format_pr_prompt d₂ := by
  unfold format_pr_prompt fieldStr
  rw [ht, hb, hc, hs]

/-- Witness for C8: the same field values stored in different dict
orders (and with an extra irrelevant key) yield the identical prompt. -/
theorem claim_C8_witness :
    pyGet [("x", PyVal.int 0), ("title", PyVal.str "T")] "title" (.str "N/A")
        = pyGet [("title", PyVal.str "T")] "title" (.str "N/A")
    ∧ format_pr_prompt [("x", PyVal.int 0), ("title", PyVal.str "T")]
        = format_pr_prompt [("title", PyVal.str "T")] :=
  ⟨rfl, claim_C8 [("x", PyVal.int 0), ("title", PyVal.str "T")]
    [("title", PyVal.str "T")] rfl rfl rfl rfl⟩

/-- C9 counterexample: `"a/"` does not match the `owner/name` form (its
name part is empty), yet src/src/core/github.py's `get_recent_prs` does
not fail — it issues the HTTP request `repos/a//pulls` and returns
normally; and src/github_client.py issues a request for the slash-free
identifier `"notarepo"` without any validation at all. -/
theorem claim_C9_counterexample :
    matchesOwnerName "a/" = false
    ∧ CoreGithub.get_recent_prs "a/" listing404 = (.ok [], ["repos/a//pulls"])
    ∧ matchesOwnerName "notarepo" = false
    ∧ GithubClientPy.get_recent_prs "notarepo" 10 listing404 commentsDown
        = ([], ["https://api.github.com/repos/notarepo/pulls"]) :=
  ⟨by decide, rfl, by decide, rfl⟩

/-- C9 (amended): src/src/core/github.py raises an uncaught `ValueError`
before issuing any HTTP request exactly when the identifier does not
split on `/` into two parts; an identifier with exactly one slash — even
with an empty owner or name — proceeds to issue the listing request.
src/github_client.py performs no format validation and always issues the
request. -/
theorem claim_C9 :
    (∀ (repo : String) (resp : HttpListing),
        (pySplitSlash repo).length ≠ 2 →
        CoreGithub.get_recent_prs repo resp
          = (.error "ValueError: unpacking repo.split", []))
    ∧ (∀ (repo owner name : String) (resp : HttpListing),
        pySplitSlash repo = [owner, name] →
        (CoreGithub.get_recent_prs repo resp).2
          = ["repos/" ++ owner ++ "/" ++ name ++ "/pulls"])
    ∧ (∀ (repo : String) (count : Nat) (listing : HttpListing)
        (f : String → HttpComments),
        ((GithubClientPy.get_recent_prs repo count listing f).2).head?
          = some ("https://api.github.com/repos/" ++ repo ++ "/pulls")) := by
  refine ⟨?_, ?_, ?_⟩
  · intro repo resp hlen
    unfold CoreGithub.get_recent_prs
    match hsplit : pySplitSlash repo with
    | [] => rfl
    | [a] => rfl
    | [a, b] =>
      rw [hsplit] at hlen
      simp at hlen
    | a :: b :: c :: t => rfl
  · intro repo owner name resp hsplit
    unfold CoreGithub.get_recent_prs
    rw [hsplit]
    by_cases h : 400 ≤ resp.status ∧ resp.status < 600
    · simp only [if_pos h]
    · simp only [if_neg h]
  · intro repo count listing f
    unfold GithubClientPy.get_recent_prs
    by_cases h : listing.status ≠ 200
    · rw [if_pos h]
      rfl
    · rw [if_neg h]
      rfl

/-- Witness for C9 (amended): a slash-free identifier fails before any
request; `"a/"` issues its request. -/
theorem claim_C9_witness :
    (pySplitSlash "notarepo").length ≠ 2
    ∧ CoreGithub.get_recent_prs "notarepo" listing404
        = (.error "ValueError: unpacking repo.split", [])
    ∧ pySplitSlash "a/" = ["a", ""]
    ∧ (CoreGithub.get_recent_prs "a/" listing404).2 = ["repos/a//pulls"] :=
  ⟨by decide, claim_C9.1 "notarepo" listing404 (by decide),
   by decide, claim_C9.2.1 "a/" "a" "" listing404 (by decide)⟩

end PRSummarizer
